import Mathlib

/-!
Verification development for the CTAHR fisheries data-cleaning pipeline
(`clean_noncommercial.py`, `pipeline.py`).

A pandas `DataFrame` is embedded as a `Table`: a header (`cols`) plus an
ordered list of rows, each row an association list from column name to
`Cell`.  Numeric cells are rationals (pandas floats / nullable Int64),
string cells are raw CSV text, and `Cell.null` stands for `NaN` / `pd.NA`.
Python exceptions are `Except Unit`; Python `None` is `Option.none`.
-/

namespace Fisheries

/-- A single DataFrame cell: a numeric value, a raw string, or a missing
value (`NaN` / `pd.NA`). -/
inductive Cell where
  | num (q : ℚ)
  | strv (s : String)
  | null
deriving DecidableEq

/-- One DataFrame row, keyed by column name. -/
abbrev Row := List (String × Cell)

/-- An ordered table: the header column list plus the rows. -/
structure Table where
  cols : List String
  rows : List Row
deriving DecidableEq

/-- Column access inside a row.  The pipeline only reads columns after the
schema gate has established their presence; an absent key reads as a
missing value. -/
def getCell (r : Row) (c : String) : Cell :=
  match r.lookup c with
  | some v => v
  | none => Cell.null

/-- Column assignment inside a row (`df[c] = ...` applied row-wise):
every binding of column `c` is overwritten, all other bindings kept. -/
def setCell (r : Row) (c : String) (v : Cell) : Row :=
  r.map (fun p => (p.1, if p.1 = c then v else p.2))

/-- `True` exactly for a missing cell (`isnull`). -/
def isNullCell : Cell → Bool
  | Cell.null => true
  | _ => false

/-- Digit-string to number; `none` when empty or a non-digit appears. -/
def digitsToNat? (l : List Char) : Option Nat :=
  if l.isEmpty then none
  else
    l.foldl
      (fun acc c =>
        match acc with
        | none => none
        | some n => if c.isDigit then some (n * 10 + (c.toNat - 48)) else none)
      (some 0)

/-- Numeric parsing of a raw string cell: optional sign, integer part,
optional fractional part (the parser behind `pd.to_numeric`). -/
def parseNumeric (s : String) : Option ℚ :=
  let cs := s.trim.toList
  let signed : Bool × List Char :=
    match cs with
    | '-' :: rest => (true, rest)
    | '+' :: rest => (false, rest)
    | _ => (false, cs)
  match (signed.2).splitOn '.' with
  | [intPart] =>
      (digitsToNat? intPart).map (fun n => if signed.1 then -(n : ℚ) else (n : ℚ))
  | [intPart, fracPart] =>
      match digitsToNat? intPart, digitsToNat? fracPart with
      | some i, some f =>
          let q : ℚ := (i : ℚ) + (f : ℚ) / ((10 : ℚ) ^ fracPart.length)
          some (if signed.1 then -q else q)
      | _, _ => none
  | _ => none

/-- `pd.to_numeric(col, errors='coerce')` on one cell: numbers and missing
values pass through, strings parse or become missing. -/
def toNumericCoerce : Cell → Cell
  | Cell.num q => Cell.num q
  | Cell.null => Cell.null
  | Cell.strv s =>
      match parseNumeric s with
      | some q => Cell.num q
      | none => Cell.null

/-- `.astype('Int64')` on one already-numeric cell: integral values and
missing values pass through; a non-integral (or non-numeric) value makes
the cast raise. -/
def castInt64 : Cell → Except Unit Cell
  | Cell.num q => if q.den = 1 then Except.ok (Cell.num q) else Except.error ()
  | Cell.null => Except.ok Cell.null
  | Cell.strv _ => Except.error ()

/-- Row-wise effect of `validateDataTypes`'s two column assignments:
`year` is numerically coerced then cast to nullable integer, and
`exchange_value` is numerically coerced. -/
def coerceRow (r : Row) : Except Unit Row := do
  let y ← castInt64 (toNumericCoerce (getCell r "year"))
  Except.ok (setCell (setCell r "year" y) "exchange_value"
    (toNumericCoerce (getCell r "exchange_value")))

/-- Effectful map over a list, failing as soon as one element fails
(column-wise pandas operations applied row by row). -/
def exceptMap (f : α → Except Unit β) : List α → Except Unit (List β)
  | [] => Except.ok []
  | a :: as => do
      let b ← f a
      let bs ← exceptMap f as
      Except.ok (b :: bs)

/-- `df[c].isnull().sum()`. -/
def countNull (t : Table) (c : String) : Nat :=
  (t.rows.filter (fun r => isNullCell (getCell r c))).length

/-- `NonCommercialDataCleaner.validateDataTypes`: coerce `year` to nullable
integer and `exchange_value` to numeric, then count the nulls present in
each column (the counts are logged as warnings). -/
def validateDataTypes (t : Table) : Except Unit (Table × Nat × Nat) := do
  let rows ← exceptMap coerceRow t.rows
  let t2 : Table := { t with rows := rows }
  Except.ok (t2, countNull t2 "year", countNull t2 "exchange_value")

/-- `required_columns` of `NonCommercialDataCleaner.validateSchema`. -/
def required_columns : List String :=
  ["year", "island", "county", "species_group", "ecosystem_type", "exchange_value"]

/-- `optional_columns` of `NonCommercialDataCleaner.validateSchema`. -/
def optional_columns : List String :=
  ["island_olelo", "county_olelo", "exchange_value_formatted"]

/-- `missing_required`: the required columns absent from the table. -/
def missingRequired (t : Table) : List String :=
  required_columns.filter (fun c => !t.cols.contains c)

/-- `NonCommercialDataCleaner.validateSchema`: `False` iff some required
column is missing. -/
def validateSchema (t : Table) : Bool :=
  (missingRequired t).isEmpty

/-- One entry of the `issues` list built by `validateDataRanges`. -/
inductive RangeIssue where
  | negativeExchangeValues (count : Nat)
  | yearsOutsideRange (years : List Cell)
deriving DecidableEq

/-- `df['exchange_value'] < 0` on one cell (missing compares false). -/
def cellNeg (c : Cell) : Bool :=
  match c with
  | Cell.num q => decide (q < 0)
  | _ => false

/-- `(df['year'] < 2005) | (df['year'] > 2022)` on one cell (missing
compares false). -/
def cellYearOut (c : Cell) : Bool :=
  match c with
  | Cell.num q => decide (q < 2005) || decide (2022 < q)
  | _ => false

/-- `NonCommercialDataCleaner.validateDataRanges`: log-only range audit.
Returns the (unchanged) table together with the issue list it reports;
the Python method always returns `True`. -/
def validateDataRanges (t : Table) : Table × List RangeIssue :=
  let issues1 : List RangeIssue :=
    if t.rows.any (fun r => cellNeg (getCell r "exchange_value")) then
      [RangeIssue.negativeExchangeValues
        ((t.rows.filter (fun r => cellNeg (getCell r "exchange_value"))).length)]
    else []
  let issues2 : List RangeIssue :=
    if t.rows.any (fun r => cellYearOut (getCell r "year")) then
      [RangeIssue.yearsOutsideRange
        (((t.rows.filter (fun r => cellYearOut (getCell r "year"))).map
          (fun r => getCell r "year")).dedup)]
    else []
  (t, issues1 ++ issues2)

/-- `df[c].unique()`. -/
def uniqueVals (t : Table) (c : String) : List Cell :=
  (t.rows.map (fun r => getCell r c)).dedup

/-- The distinct values of column `c` lying outside an expected string
vocabulary (the `unexpected` list of the categorical validators). -/
def unexpectedVals (t : Table) (c : String) (expected : List String) : List Cell :=
  (uniqueVals t c).filter (fun v => !(expected.map Cell.strv).contains v)

/-- `expected_ecosystems` of `validateEcosystemTypes`. -/
def expected_ecosystems : List String :=
  ["Inshore — Reef", "Coastal — Open Ocean", "All Ecosystems"]

/-- `NonCommercialDataCleaner.validateEcosystemTypes`: log-only check;
returns the unchanged table and the unexpected values it warns about. -/
def validateEcosystemTypes (t : Table) : Table × List Cell :=
  (t, unexpectedVals t "ecosystem_type" expected_ecosystems)

/-- `expected_species` of `validateSpeciesGroups`. -/
def expected_species : List String := ["Herbivores"]

/-- `NonCommercialDataCleaner.validateSpeciesGroups`: log-only check. -/
def validateSpeciesGroups (t : Table) : Table × List Cell :=
  (t, unexpectedVals t "species_group" expected_species)

/-- `expected_islands` of `validateIslands`. -/
def expected_islands : List String :=
  ["Hawaii", "Kauai", "Lanai", "Maui", "Molokai", "Oahu"]

/-- `NonCommercialDataCleaner.validateIslands`: log-only check. -/
def validateIslands (t : Table) : Table × List Cell :=
  (t, unexpectedVals t "island" expected_islands)

/-- `expected_counties` of `validateCounties`. -/
def expected_counties : List String := ["Hawaii", "Maui", "Honolulu", "Kauai"]

/-- `NonCommercialDataCleaner.validateCounties`: log-only check. -/
def validateCounties (t : Table) : Table × List Cell :=
  (t, unexpectedVals t "county" expected_counties)

/-- `NonCommercialDataCleaner.removeNullValues`:
`self.data = self.data[self.data['exchange_value'].notna()]`. -/
def removeNullValues (t : Table) : Table :=
  { t with rows := t.rows.filter (fun r => !isNullCell (getCell r "exchange_value")) }

/-- `NonCommercialDataCleaner.removeAggregateRows`: when the flag is on,
`self.data = self.data[~self.data['ecosystem_type'].isin(['All Ecosystems'])]`;
otherwise the stage is skipped. -/
def removeAggregateRows (remove_aggregates : Bool) (t : Table) : Table :=
  if !remove_aggregates then t
  else
    { t with
        rows := t.rows.filter
          (fun r => !([Cell.strv "All Ecosystems"].contains (getCell r "ecosystem_type"))) }

/-- `display_columns` of `removeDisplayColumns`. -/
def display_columns : List String :=
  ["island_olelo", "county_olelo", "exchange_value_formatted"]

/-- `NonCommercialDataCleaner.removeDisplayColumns`: when the flag is on,
drop the display-only columns that are present; otherwise keep them. -/
def removeDisplayColumns (remove_display : Bool) (t : Table) : Table :=
  if !remove_display then t
  else
    let columns_to_drop := display_columns.filter (fun c => t.cols.contains c)
    { cols := t.cols.filter (fun c => !columns_to_drop.contains c),
      rows := t.rows.map (fun r => r.filter (fun p => !columns_to_drop.contains p.1)) }

/-- The non-null numeric values of column `c`, in row order (a pandas
numeric series with its missing entries skipped, as aggregations do). -/
def colNums (t : Table) (c : String) : List ℚ :=
  t.rows.filterMap (fun r =>
    match getCell r c with
    | Cell.num q => some q
    | _ => none)

/-- Numeric content of a cell for summation (`sum()` skips missing). -/
def numOrZero : Cell → ℚ
  | Cell.num q => q
  | _ => 0

/-- Python `int()` on a numeric value: truncation toward zero. -/
def intOfRat (q : ℚ) : Int :=
  Int.tdiv q.num (q.den : Int)

/-- Sort key used to mirror Python `sorted` over the (string-valued)
categorical columns. -/
def cellKey : Cell → String
  | Cell.strv s => s
  | Cell.num q => toString q.num
  | Cell.null => ""

/-- Insertion step for `sortCells`. -/
def insertSorted (x : Cell) : List Cell → List Cell
  | [] => [x]
  | y :: ys => if cellKey x ≤ cellKey y then x :: y :: ys else y :: insertSorted x ys

/-- Python `sorted` over a list of cells. -/
def sortCells : List Cell → List Cell
  | [] => []
  | x :: xs => insertSorted x (sortCells xs)

/-- The sorted distinct non-null values of column `c` (pandas `groupby`
keys: missing keys are dropped and keys are sorted). -/
def groupKeys (t : Table) (c : String) : List Cell :=
  sortCells (((t.rows.map (fun r => getCell r c)).filter (fun v => !isNullCell v)).dedup)

/-- `df.groupby(c).size().to_dict()`. -/
def groupSizes (t : Table) (c : String) : List (Cell × Nat) :=
  (groupKeys t c).map (fun v => (v, (t.rows.filter (fun r => getCell r c == v)).length))

/-- `df.groupby(c)[vcol].sum().to_dict()`. -/
def groupValueSums (t : Table) (c vcol : String) : List (Cell × ℚ) :=
  (groupKeys t c).map (fun v =>
    (v, ((t.rows.filter (fun r => getCell r c == v)).map
      (fun r => numOrZero (getCell r vcol))).sum))

/-- The `summary` dictionary built by `generateSummaryStatistics`
(the constant `data_type` tag and wall-clock timestamp are omitted). -/
structure Summary where
  raw_row_count : Nat
  cleaned_row_count : Nat
  rows_removed : Int
  min_year : Int
  max_year : Int
  total_exchange_value : ℚ
  unique_islands : List Cell
  unique_counties : List Cell
  unique_species_groups : List Cell
  unique_ecosystem_types : List Cell
  records_by_year : List (Cell × Nat)
  records_by_island : List (Cell × Nat)
  total_value_by_year : List (Cell × ℚ)
deriving DecidableEq

/-- `NonCommercialDataCleaner.generateSummaryStatistics`: the summary
snapshot over the cleaned table.  `int(df['year'].min())` raises when the
year column has no non-null entry (the min is `pd.NA`), so the summary is
an `Except`. -/
def generateSummaryStatistics (raw : Nat) (t : Table) : Except Unit Summary :=
  match (colNums t "year").min?, (colNums t "year").max? with
  | some mn, some mx =>
      Except.ok
        { raw_row_count := raw
          cleaned_row_count := t.rows.length
          rows_removed := (raw : Int) - (t.rows.length : Int)
          min_year := intOfRat mn
          max_year := intOfRat mx
          total_exchange_value := (t.rows.map (fun r => numOrZero (getCell r "exchange_value"))).sum
          unique_islands := sortCells (uniqueVals t "island")
          unique_counties := sortCells (uniqueVals t "county")
          unique_species_groups := sortCells (uniqueVals t "species_group")
          unique_ecosystem_types := sortCells (uniqueVals t "ecosystem_type")
          records_by_year := groupSizes t "year"
          records_by_island := groupSizes t "island"
          total_value_by_year := groupValueSums t "year" "exchange_value" }
  | _, _ => Except.error ()

/-- A run date, the input to `datetime.now().strftime('%Y%m%d')`. -/
structure Date where
  y : Nat
  m : Nat
  d : Nat
deriving DecidableEq

/-- `strftime('%Y%m%d')` for the four-digit years in which the pipeline
runs: the eight-digit decimal string `YYYYMMDD`. -/
def fmtYYYYMMDD (dt : Date) : String :=
  toString (dt.y * 10000 + dt.m * 100 + dt.d)

/-- `NonCommercialDataCleaner.exportCleanedData`: the file path written
(`cleaned_noncommercial_<YYYYMMDD>.csv` in the output directory) together
with the `cleaned_row_count` that is set at export. -/
def exportCleanedData (dt : Date) (t : Table) : String × Nat :=
  ("cleaned_noncommercial_" ++ fmtYYYYMMDD dt ++ ".csv", t.rows.length)

/-- The `(success, output_file, summary)` tuple returned by
`runCleaningPipeline`. -/
structure RunResult where
  success : Bool
  output_file : Option String
  summary : Option Summary
deriving DecidableEq

/-- The data-flow of pipeline stages 4-8: the advisory validators (which
return their input table), then null removal, optional aggregate removal,
and optional display-column removal. -/
def cleanStages (remove_aggregates remove_display : Bool) (t1 : Table) : Table :=
  let t2 := (validateDataRanges t1).1
  let t3 := (validateEcosystemTypes t2).1
  let t4 := (validateSpeciesGroups t3).1
  let t5 := (validateIslands t4).1
  let t6 := (validateCounties t5).1
  let t7 := removeNullValues t6
  let t8 := removeAggregateRows remove_aggregates t7
  removeDisplayColumns remove_display t8

/-- `NonCommercialDataCleaner.runCleaningPipeline`.  The load step is
abstracted as an `Option Table` (`none` = no candidate file / read error).
The second component records the CSV write performed by
`exportCleanedData` (file name and table written); a failed load or
schema validation returns `(False, None, None)` with nothing written. -/
def runCleaningPipeline (load : Option Table) (dt : Date)
    (remove_aggregates remove_display : Bool) :
    Except Unit RunResult × List (String × Table) :=
  match load with
  | none => (Except.ok ⟨false, none, none⟩, [])
  | some data0 =>
      if validateSchema data0 = false then (Except.ok ⟨false, none, none⟩, [])
      else
        match validateDataTypes data0 with
        | Except.error e => (Except.error e, [])
        | Except.ok (t1, _, _) =>
            let data9 := cleanStages remove_aggregates remove_display t1
            let ex := exportCleanedData dt data9
            match generateSummaryStatistics data0.rows.length data9 with
            | Except.error e => (Except.error e, [(ex.1, data9)])
            | Except.ok s => (Except.ok ⟨true, some ex.1, some s⟩, [(ex.1, data9)])

/-- One entry of `FisheriesCleaningPipeline.results`: either the
`{'success': True, 'output_file': ..., 'summary': ...}` dictionary or the
`{'success': False, 'error': ...}` dictionary. -/
inductive ResultRecord where
  | okRec (output_file : Option String) (summary : Option Summary)
  | failedRec (error : String)
deriving DecidableEq

/-- `record['summary']`: present on a success record, a `KeyError` on a
failure record. -/
def getSummaryField : ResultRecord → Except Unit (Option Summary)
  | ResultRecord.okRec _ s => Except.ok s
  | ResultRecord.failedRec _ => Except.error ()

/-- Subscripting a possibly-`None` stored summary (`None[...]` raises). -/
def subscriptSummary : Option Summary → Except Unit Summary
  | some s => Except.ok s
  | none => Except.error ()

/-- `FisheriesCleaningPipeline.results` (`None` = that cleaner has not
stored an outcome). -/
structure Results where
  commercial : Option ResultRecord
  non_commercial : Option ResultRecord
deriving DecidableEq

/-- `FisheriesCleaningPipeline.runCommercialCleaning`, given the tuple the
commercial cleaner returned: stores a success or failure record and
returns the success flag. -/
def runCommercialCleaning (r : Bool × Option String × Option Summary) :
    ResultRecord × Bool :=
  if r.1 then (ResultRecord.okRec r.2.1 r.2.2, true)
  else (ResultRecord.failedRec "Commercial data cleaning failed", false)

/-- `FisheriesCleaningPipeline.runNoncommercialCleaning`, given the tuple
the non-commercial cleaner returned. -/
def runNoncommercialCleaning (r : Bool × Option String × Option Summary) :
    ResultRecord × Bool :=
  if r.1 then (ResultRecord.okRec r.2.1 r.2.2, true)
  else (ResultRecord.failedRec "Non commercial data cleaning failed", false)

/-- The `overall` section of the combined summary. -/
structure Overall where
  total_records : Nat
  total_exchange_value : ℚ
  min_year : Int
  max_year : Int
deriving DecidableEq

/-- The dictionary built by `generateCombinedSummary` (minus the
wall-clock timestamp). -/
structure CombinedSummary where
  commercial : Option Summary
  non_commercial : Option Summary
  overall : Option Overall
deriving DecidableEq

/-- `FisheriesCleaningPipeline.generateCombinedSummary`.  Each per-dataset
field is `results[k]['summary'] if results[k] else None`: a stored record
is truthy (a non-empty dict) whether it is a success or a failure record,
and subscripting a failure record with `'summary'` raises `KeyError` —
hence the `Except`.  The `overall` section is computed whenever both
records are truthy, reading `cleaned_row_count`, `total_exchange_value`
and the date range out of both summaries. -/
def generateCombinedSummary (res : Results) : Except Unit CombinedSummary := do
  let c ← match res.commercial with
    | none => Except.ok (none : Option Summary)
    | some r => getSummaryField r
  let n ← match res.non_commercial with
    | none => Except.ok (none : Option Summary)
    | some r => getSummaryField r
  if res.commercial.isSome && res.non_commercial.isSome then
    let cs ← (match res.commercial with
      | some r => getSummaryField r
      | none => Except.error ()) >>= subscriptSummary
    let ns ← (match res.non_commercial with
      | some r => getSummaryField r
      | none => Except.error ()) >>= subscriptSummary
    Except.ok
      { commercial := c
        non_commercial := n
        overall := some
          { total_records := cs.cleaned_row_count + ns.cleaned_row_count
            total_exchange_value := cs.total_exchange_value + ns.total_exchange_value
            min_year := min cs.min_year ns.min_year
            max_year := max cs.max_year ns.max_year } }
  else
    Except.ok { commercial := c, non_commercial := n, overall := none }

/-- `FisheriesCleaningPipeline.runFullPipeline`, given the tuples the two
cleaners' `runCleaningPipeline` calls returned: runs the commercial
recording, then the non-commercial recording unconditionally, and reports
overall success as the conjunction of the two success flags. -/
def runFullPipeline (comm noncomm : Bool × Option String × Option Summary) :
    Results × Bool :=
  let cr := runCommercialCleaning comm
  let nr := runNoncommercialCleaning noncomm
  ({ commercial := some cr.1, non_commercial := some nr.1 }, cr.2 && nr.2)

end Fisheries

deriving instance DecidableEq for Except

namespace Fisheries

/-- A valid aggregate (`All Ecosystems`) row. -/
def rowA : Row :=
  [("year", Cell.num 2010), ("island", Cell.strv "Oahu"), ("county", Cell.strv "Honolulu"),
   ("species_group", Cell.strv "Herbivores"), ("ecosystem_type", Cell.strv "All Ecosystems"),
   ("exchange_value", Cell.num 5)]

/-- A valid non-aggregate row. -/
def rowB : Row :=
  [("year", Cell.num 2012), ("island", Cell.strv "Maui"), ("county", Cell.strv "Maui"),
   ("species_group", Cell.strv "Herbivores"), ("ecosystem_type", Cell.strv "Inshore — Reef"),
   ("exchange_value", Cell.num 7)]

/-- A row whose `exchange_value` is missing. -/
def rowC : Row :=
  [("year", Cell.num 2011), ("island", Cell.strv "Kauai"), ("county", Cell.strv "Kauai"),
   ("species_group", Cell.strv "Herbivores"), ("ecosystem_type", Cell.strv "Inshore — Reef"),
   ("exchange_value", Cell.null)]

/-- A small well-formed loaded table. -/
def sampleTable : Table := { cols := required_columns, rows := [rowA, rowB, rowC] }

/-- A second, different well-formed table. -/
def otherTable : Table := { cols := required_columns, rows := [rowB] }

/-- A table whose header is missing the required `island` column. -/
def missingIslandTable : Table :=
  { cols := ["year", "county", "species_group", "ecosystem_type", "exchange_value"],
    rows := [] }

/-- A concrete `CleaningSummary` value. -/
def smallSummary : Summary :=
  { raw_row_count := 1
    cleaned_row_count := 1
    rows_removed := 0
    min_year := 2010
    max_year := 2010
    total_exchange_value := 5
    unique_islands := []
    unique_counties := []
    unique_species_groups := []
    unique_ecosystem_types := []
    records_by_year := []
    records_by_island := []
    total_value_by_year := [] }

/-- The summary produced by the default-flag run over `sampleTable`:
`rowC` is dropped for its missing exchange value and `rowA` as an
aggregate row, leaving `rowB` alone. -/
def sampleRunSummary : Summary :=
  { raw_row_count := 3
    cleaned_row_count := 1
    rows_removed := 2
    min_year := 2012
    max_year := 2012
    total_exchange_value := 7
    unique_islands := [Cell.strv "Maui"]
    unique_counties := [Cell.strv "Maui"]
    unique_species_groups := [Cell.strv "Herbivores"]
    unique_ecosystem_types := [Cell.strv "Inshore — Reef"]
    records_by_year := [(Cell.num 2012, 1)]
    records_by_island := [(Cell.strv "Maui", 1)]
    total_value_by_year := [(Cell.num 2012, 7)] }

/-- The result of the default-flag run over `sampleTable`. -/
def sampleRunResult : RunResult :=
  ⟨true, some "cleaned_noncommercial_20261012.csv", some sampleRunSummary⟩

/-- The single CSV write of the default-flag run over `sampleTable`. -/
def sampleWrites : List (String × Table) :=
  [("cleaned_noncommercial_20261012.csv", { cols := required_columns, rows := [rowB] })]

/-- The cleaned table of the `remove_aggregates=False` run over
`sampleTable`: only the null-exchange-value row is dropped. -/
def sampleNoAggTable : Table := { cols := required_columns, rows := [rowA, rowB] }

/-- The single CSV write of the `remove_aggregates=False` run over
`sampleTable`. -/
def sampleWritesNoAgg : List (String × Table) :=
  [("cleaned_noncommercial_20261012.csv", sampleNoAggTable)]

/-- A row whose raw `exchange_value` cell is unparseable text. -/
def rowN : Row :=
  [("year", Cell.num 2010), ("island", Cell.strv "Oahu"), ("county", Cell.strv "Honolulu"),
   ("species_group", Cell.strv "Herbivores"), ("ecosystem_type", Cell.strv "Inshore — Reef"),
   ("exchange_value", Cell.strv "n/a")]

/-- `rowN` after type coercion: the exchange value became null. -/
def rowNCoerced : Row :=
  [("year", Cell.num 2010), ("island", Cell.strv "Oahu"), ("county", Cell.strv "Honolulu"),
   ("species_group", Cell.strv "Herbivores"), ("ecosystem_type", Cell.strv "Inshore — Reef"),
   ("exchange_value", Cell.null)]

/-- A loaded table whose only row has an unparseable exchange value, so
the cleaned table is empty. -/
def nullEVTable : Table := { cols := required_columns, rows := [rowN] }

/-- `nullEVTable` after type coercion. -/
def nullEVTableCoerced : Table := { cols := required_columns, rows := [rowNCoerced] }

/-- The rational `7/2` in lowest terms (the parse of `"3.5"`), given by
its normal form so that kernel evaluation is direct. -/
def sevenHalves : ℚ := ⟨7, 2, by decide, by decide⟩

/-- A row whose `year` and `exchange_value` arrive as raw strings. -/
def rowM : Row :=
  [("year", Cell.strv "2011"), ("island", Cell.strv "Oahu"), ("county", Cell.strv "Honolulu"),
   ("species_group", Cell.strv "Herbivores"), ("ecosystem_type", Cell.strv "Inshore — Reef"),
   ("exchange_value", Cell.strv "3.5")]

/-- `rowM` after type coercion: both cells became numeric. -/
def rowMCoerced : Row :=
  [("year", Cell.num 2011), ("island", Cell.strv "Oahu"), ("county", Cell.strv "Honolulu"),
   ("species_group", Cell.strv "Herbivores"), ("ecosystem_type", Cell.strv "Inshore — Reef"),
   ("exchange_value", Cell.num sevenHalves)]

/-- A loaded table with string-typed numeric cells. -/
def tMixed : Table := { cols := required_columns, rows := [rowM] }

/-- `tMixed` after type coercion. -/
def tMixedCoerced : Table := { cols := required_columns, rows := [rowMCoerced] }

/-! ### Helper lemmas -/

theorem exceptMap_ok_length {f : α → Except Unit β} :
    ∀ {l : List α} {l2 : List β}, exceptMap f l = Except.ok l2 → l2.length = l.length := by
  intro l
  induction l with
  | nil =>
      intro l2 h
      simp only [exceptMap] at h
      cases h
      rfl
  | cons a as ih =>
      intro l2 h
      simp only [exceptMap, bind, Except.bind] at h
      cases hfa : f a with
      | error e => rw [hfa] at h; cases h
      | ok b =>
          rw [hfa] at h
          cases hrest : exceptMap f as with
          | error e => rw [hrest] at h; cases h
          | ok bs =>
              rw [hrest] at h
              cases h
              simp [ih hrest]

theorem validateDataTypes_ok_length {t t1 : Table} {ny nv : Nat}
    (h : validateDataTypes t = Except.ok (t1, ny, nv)) :
    t1.rows.length = t.rows.length := by
  simp only [validateDataTypes, bind, Except.bind] at h
  cases hrows : exceptMap coerceRow t.rows with
  | error e => rw [hrows] at h; cases h
  | ok rows =>
      rw [hrows] at h
      cases h
      exact exceptMap_ok_length hrows

theorem cleanStages_eq (ra rd : Bool) (t1 : Table) :
    cleanStages ra rd t1 =
      removeDisplayColumns rd (removeAggregateRows ra (removeNullValues t1)) := rfl

theorem removeNullValues_rows (t : Table) :
    (removeNullValues t).rows =
      t.rows.filter (fun r => !isNullCell (getCell r "exchange_value")) := rfl

theorem removeAggregateRows_false (t : Table) : removeAggregateRows false t = t := rfl

theorem removeAggregateRows_true_rows (t : Table) :
    (removeAggregateRows true t).rows =
      t.rows.filter
        (fun r => !([Cell.strv "All Ecosystems"].contains (getCell r "ecosystem_type"))) := rfl

theorem removeDisplayColumns_false (t : Table) : removeDisplayColumns false t = t := rfl

theorem removeDisplayColumns_length (rd : Bool) (t : Table) :
    (removeDisplayColumns rd t).rows.length = t.rows.length := by
  cases rd with
  | false => rfl
  | true => simp [removeDisplayColumns]

theorem removeNullValues_length_le (t : Table) :
    (removeNullValues t).rows.length ≤ t.rows.length :=
  List.length_filter_le _ _

theorem removeAggregateRows_length_le (ra : Bool) (t : Table) :
    (removeAggregateRows ra t).rows.length ≤ t.rows.length := by
  cases ra with
  | false => exact Nat.le_refl _
  | true => exact List.length_filter_le _ _

theorem removeNullValues_sublist (t : Table) :
    (removeNullValues t).rows.Sublist t.rows :=
  List.filter_sublist _

theorem removeAggregateRows_sublist (ra : Bool) (t : Table) :
    (removeAggregateRows ra t).rows.Sublist t.rows := by
  cases ra with
  | false => exact List.Sublist.refl _
  | true => exact List.filter_sublist _

theorem run_load_fail (dt : Date) (ra rd : Bool) :
    runCleaningPipeline none dt ra rd = (Except.ok ⟨false, none, none⟩, []) := rfl

theorem run_schema_fail {t : Table} (dt : Date) (ra rd : Bool)
    (h : validateSchema t = false) :
    runCleaningPipeline (some t) dt ra rd = (Except.ok ⟨false, none, none⟩, []) := by
  simp [runCleaningPipeline, h]

theorem run_summary_ok {t t1 : Table} {ny nv : Nat} {s : Summary} (dt : Date) (ra rd : Bool)
    (hvs : validateSchema t = true)
    (hvdt : validateDataTypes t = Except.ok (t1, ny, nv))
    (hsum : generateSummaryStatistics t.rows.length (cleanStages ra rd t1) = Except.ok s) :
    runCleaningPipeline (some t) dt ra rd =
      (Except.ok ⟨true, some (exportCleanedData dt (cleanStages ra rd t1)).1, some s⟩,
       [((exportCleanedData dt (cleanStages ra rd t1)).1, cleanStages ra rd t1)]) := by
  simp [runCleaningPipeline, hvs, hvdt, hsum]

theorem run_summary_err {t t1 : Table} {ny nv : Nat} (dt : Date) (ra rd : Bool)
    (hvs : validateSchema t = true)
    (hvdt : validateDataTypes t = Except.ok (t1, ny, nv))
    (hsum : generateSummaryStatistics t.rows.length (cleanStages ra rd t1) = Except.error ()) :
    runCleaningPipeline (some t) dt ra rd =
      (Except.error (),
       [((exportCleanedData dt (cleanStages ra rd t1)).1, cleanStages ra rd t1)]) := by
  simp [runCleaningPipeline, hvs, hvdt, hsum]

theorem run_writes {t t1 : Table} {ny nv : Nat} (dt : Date) (ra rd : Bool)
    (hvs : validateSchema t = true)
    (hvdt : validateDataTypes t = Except.ok (t1, ny, nv)) :
    (runCleaningPipeline (some t) dt ra rd).2 =
      [((exportCleanedData dt (cleanStages ra rd t1)).1, cleanStages ra rd t1)] := by
  cases hsum : generateSummaryStatistics t.rows.length (cleanStages ra rd t1) with
  | error e =>
      cases e
      rw [run_summary_err dt ra rd hvs hvdt hsum]
  | ok s =>
      rw [run_summary_ok dt ra rd hvs hvdt hsum]

theorem generateSummaryStatistics_error_of_no_years {raw : Nat} {t : Table}
    (h : colNums t "year" = []) :
    generateSummaryStatistics raw t = Except.error () := by
  unfold generateSummaryStatistics
  rw [h]
  simp

theorem generateSummaryStatistics_counts {raw : Nat} {t : Table} {s : Summary}
    (h : generateSummaryStatistics raw t = Except.ok s) :
    s.raw_row_count = raw ∧ s.cleaned_row_count = t.rows.length ∧
    s.rows_removed = (raw : Int) - (t.rows.length : Int) := by
  unfold generateSummaryStatistics at h
  split at h
  · cases h
    exact ⟨rfl, rfl, rfl⟩
  · cases h

/-! ### Claim theorems -/

/-- C1: after a run in which the commercial sub-pipeline succeeded and the
non-commercial one failed, `results['non_commercial']` holds the truthy
failure dictionary, so `generateCombinedSummary` raises `KeyError` when it
subscripts it with `'summary'` — it does not return a combined summary
with a null `non_commercial` field and no `overall` section, as the spec
requires. -/
theorem generateCombinedSummary_raises_on_failure :
    generateCombinedSummary
      { commercial := some
          (ResultRecord.okRec (some "cleaned_commercial_20261012.csv") (some smallSummary)),
        non_commercial := some
          (ResultRecord.failedRec "Non commercial data cleaning failed") } =
      Except.error () := rfl

/-- C2: a loaded table missing a required column makes `validateSchema`
report failure, makes `runCleaningPipeline` return the failure triple
`(False, None, None)`, and no output CSV is written; likewise nothing is
written when the load itself fails. -/
theorem schema_gate_no_output (t : Table) (dt : Date) (ra rd : Bool)
    (h : missingRequired t ≠ []) :
    validateSchema t = false ∧
    runCleaningPipeline (some t) dt ra rd = (Except.ok ⟨false, none, none⟩, []) ∧
    runCleaningPipeline none dt ra rd = (Except.ok ⟨false, none, none⟩, []) := by
  have hvs : validateSchema t = false := by
    simp only [validateSchema, List.isEmpty_eq_false_iff_exists_mem]
    rcases List.exists_mem_of_ne_nil _ h with ⟨c, hc⟩
    exact ⟨c, hc⟩
  exact ⟨hvs, run_schema_fail dt ra rd hvs, rfl⟩

/-- C2 witness: the schema gate at a concrete table whose header lacks the
required `island` column. -/
theorem schema_gate_no_output_witness :
    missingRequired missingIslandTable ≠ [] ∧
    validateSchema missingIslandTable = false ∧
    runCleaningPipeline (some missingIslandTable) ⟨2026, 10, 12⟩ true false =
      (Except.ok ⟨false, none, none⟩, []) :=
  ⟨by decide,
   (schema_gate_no_output missingIslandTable ⟨2026, 10, 12⟩ true false (by decide)).1,
   (schema_gate_no_output missingIslandTable ⟨2026, 10, 12⟩ true false (by decide)).2.1⟩

/-- C5: the advisory validation stages (range audit and the four
categorical validators) return their input table unchanged — no row is
removed and no value is mutated — whatever anomalies the table holds. -/
theorem advisory_stages_frame (t : Table) :
    (validateDataRanges t).1 = t ∧
    (validateEcosystemTypes t).1 = t ∧
    (validateSpeciesGroups t).1 = t ∧
    (validateIslands t).1 = t ∧
    (validateCounties t).1 = t ∧
    (validateDataRanges t).1.rows.length = t.rows.length :=
  ⟨rfl, rfl, rfl, rfl, rfl, rfl⟩

/-- C6 counterexample: the export path carries only the calendar date, so
two runs on the same day — here over two different cleaned tables — write
the very same file path; the second run overwrites the first, refuting
"never overwritten by a subsequent run". -/
theorem export_same_day_same_path :
    (exportCleanedData ⟨2026, 10, 12⟩ sampleTable).1 =
      (exportCleanedData ⟨2026, 10, 12⟩ otherTable).1 ∧
    sampleTable ≠ otherTable := by decide

/-- C6 (amended): each successful export writes the cleaned table to
`cleaned_noncommercial_<YYYYMMDD>.csv`; the path depends only on the run
date — runs whose dates format differently write different files, while a
re-run on the same day writes the same path and overwrites it. -/
theorem export_filename_by_date (dt : Date) (t : Table) :
    exportCleanedData dt t =
      ("cleaned_noncommercial_" ++ fmtYYYYMMDD dt ++ ".csv", t.rows.length) ∧
    (∀ t2, (exportCleanedData dt t2).1 = (exportCleanedData dt t).1) ∧
    (∀ dt2 t2, fmtYYYYMMDD dt2 ≠ fmtYYYYMMDD dt →
      (exportCleanedData dt2 t2).1 ≠ (exportCleanedData dt t).1) := by
  refine ⟨rfl, fun t2 => rfl, fun dt2 t2 hne heq => hne ?_⟩
  have heq2 : "cleaned_noncommercial_" ++ fmtYYYYMMDD dt2 ++ ".csv" =
      "cleaned_noncommercial_" ++ fmtYYYYMMDD dt ++ ".csv" := heq
  have hdata := congrArg String.data heq2
  simp only [String.data_append, List.append_assoc] at hdata
  have h1 := List.append_cancel_left hdata
  have h2 := List.append_cancel_right h1
  exact String.ext h2

/-- C6 witness: the amended statement at concrete dates — the 2026-10-12
export path differs from the 2026-10-13 one. -/
theorem export_filename_by_date_witness :
    fmtYYYYMMDD ⟨2026, 10, 13⟩ ≠ fmtYYYYMMDD ⟨2026, 10, 12⟩ ∧
    (exportCleanedData ⟨2026, 10, 13⟩ otherTable).1 ≠
      (exportCleanedData ⟨2026, 10, 12⟩ sampleTable).1 :=
  ⟨by decide,
   (export_filename_by_date ⟨2026, 10, 12⟩ sampleTable).2.2 ⟨2026, 10, 13⟩ otherTable
     (by decide)⟩

/-- C7: `runFullPipeline` records an outcome for both cleaners — each
record is determined by its own cleaner's outcome alone, so the
non-commercial cleaner runs and is recorded even when the commercial one
failed — and the overall flag is the conjunction of the two success
flags. -/
theorem runFullPipeline_records_and_conjunction
    (c n : Bool × Option String × Option Summary) :
    (runFullPipeline c n).1.commercial = some (runCommercialCleaning c).1 ∧
    (runFullPipeline c n).1.non_commercial = some (runNoncommercialCleaning n).1 ∧
    (∀ n2, (runFullPipeline c n2).1.commercial = (runFullPipeline c n).1.commercial) ∧
    (∀ c2, (runFullPipeline c2 n).1.non_commercial = (runFullPipeline c n).1.non_commercial) ∧
    (runFullPipeline c n).2 = (c.1 && n.1) := by
  refine ⟨rfl, rfl, fun n2 => rfl, fun c2 => rfl, ?_⟩
  simp only [runFullPipeline, runCommercialCleaning, runNoncommercialCleaning]
  by_cases hc : c.1 <;> by_cases hn : n.1 <;> simp [hc, hn]

/-- C3: after every successful run, the summary satisfies
`cleaned_row_count ≤ raw_row_count`, `rows_removed` is exactly their
difference, and that difference equals the rows dropped by the
null-exchange-value removal plus those dropped by the (flag-gated)
aggregate-row removal. -/
theorem rows_removed_invariant (t t1 : Table) (ny nv : Nat) (dt : Date) (ra rd : Bool)
    (res : RunResult) (w : List (String × Table))
    (hvdt : validateDataTypes t = Except.ok (t1, ny, nv))
    (hrun : runCleaningPipeline (some t) dt ra rd = (Except.ok res, w))
    (hsucc : res.success = true) :
    ∃ s, res.summary = some s ∧
      s.cleaned_row_count ≤ s.raw_row_count ∧
      s.rows_removed = (s.raw_row_count : Int) - (s.cleaned_row_count : Int) ∧
      s.rows_removed =
        ((t1.rows.length - (removeNullValues t1).rows.length : Nat) : Int) +
        (((removeNullValues t1).rows.length -
          (removeAggregateRows ra (removeNullValues t1)).rows.length : Nat) : Int) := by
  by_cases hvs : validateSchema t = false
  · rw [run_schema_fail dt ra rd hvs] at hrun
    injection hrun with h1 h2
    injection h1 with h1
    cases h1
    simp at hsucc
  · have hvs2 : validateSchema t = true := by
      cases h2 : validateSchema t with
      | true => rfl
      | false => exact absurd h2 hvs
    cases hsum : generateSummaryStatistics t.rows.length (cleanStages ra rd t1) with
    | error e =>
        cases e
        rw [run_summary_err dt ra rd hvs2 hvdt hsum] at hrun
        injection hrun with h1 h2
        cases h1
    | ok s =>
        rw [run_summary_ok dt ra rd hvs2 hvdt hsum] at hrun
        injection hrun with h1 h2
        injection h1 with h1
        cases h1
        obtain ⟨hraw, hclean, hrem⟩ := generateSummaryStatistics_counts hsum
        have hlen9 : (cleanStages ra rd t1).rows.length =
            (removeAggregateRows ra (removeNullValues t1)).rows.length := by
          rw [cleanStages_eq]
          exact removeDisplayColumns_length rd _
        have hlen1 : t1.rows.length = t.rows.length := validateDataTypes_ok_length hvdt
        have h2le : (removeAggregateRows ra (removeNullValues t1)).rows.length ≤
            (removeNullValues t1).rows.length := removeAggregateRows_length_le ra _
        have h1le : (removeNullValues t1).rows.length ≤ t1.rows.length :=
          removeNullValues_length_le t1
        rw [hlen9] at hclean hrem
        refine ⟨s, rfl, ?_, ?_, ?_⟩ <;> omega

set_option maxRecDepth 4000 in
/-- C3 witness: the invariant at the concrete `sampleTable` run with
default flags — 3 raw rows, 1 dropped for a null exchange value, 1
dropped as an aggregate row, 1 kept. -/
theorem rows_removed_invariant_witness :
    validateDataTypes sampleTable = Except.ok (sampleTable, 0, 1) ∧
    runCleaningPipeline (some sampleTable) ⟨2026, 10, 12⟩ true false =
      (Except.ok sampleRunResult, sampleWrites) ∧
    ∃ s, sampleRunResult.summary = some s ∧
      s.cleaned_row_count ≤ s.raw_row_count ∧
      s.rows_removed = (s.raw_row_count : Int) - (s.cleaned_row_count : Int) ∧
      s.rows_removed =
        ((sampleTable.rows.length - (removeNullValues sampleTable).rows.length : Nat) : Int) +
        (((removeNullValues sampleTable).rows.length -
          (removeAggregateRows true (removeNullValues sampleTable)).rows.length : Nat) : Int) := by
  have hvs : validateSchema sampleTable = true := by decide
  have hvdt : validateDataTypes sampleTable = Except.ok (sampleTable, 0, 1) := by decide
  have hcs : cleanStages true false sampleTable = otherTable := by decide
  have hsum : generateSummaryStatistics sampleTable.rows.length
      (cleanStages true false sampleTable) = Except.ok sampleRunSummary := by
    rw [hcs]
    have h1 : (colNums otherTable "year").min? = some 2012 := by decide
    have h2 : (colNums otherTable "year").max? = some 2012 := by decide
    unfold generateSummaryStatistics
    rw [h1, h2]
    simp only [sampleRunSummary, Except.ok.injEq, Summary.mk.injEq]
    refine ⟨by decide, by decide, by decide, by decide, by decide, ?_, by decide,
      by decide, by decide, by decide, by decide, by decide, ?_⟩ <;> with_unfolding_all decide
  have hrun : runCleaningPipeline (some sampleTable) ⟨2026, 10, 12⟩ true false =
      (Except.ok sampleRunResult, sampleWrites) := by
    rw [run_summary_ok ⟨2026, 10, 12⟩ true false hvs hvdt hsum, hcs]
    decide
  exact ⟨hvdt, hrun,
    rows_removed_invariant sampleTable sampleTable 0 1 ⟨2026, 10, 12⟩ true false
      sampleRunResult sampleWrites hvdt hrun rfl⟩

/-- C9: when every coerced row has a null exchange value, the cleaned
table is empty, `int()` of the empty year column's min raises inside
`generateSummaryStatistics`, and `runCleaningPipeline` raises instead of
returning — so no success result exists for such an input even though
load and schema validation succeeded. -/
theorem empty_cleaned_table_raises (t t1 : Table) (ny nv : Nat) (dt : Date) (ra rd : Bool)
    (hvs : validateSchema t = true)
    (hvdt : validateDataTypes t = Except.ok (t1, ny, nv))
    (hall : ∀ r ∈ t1.rows, isNullCell (getCell r "exchange_value") = true) :
    (runCleaningPipeline (some t) dt ra rd).1 = Except.error () ∧
    ∀ res w, runCleaningPipeline (some t) dt ra rd ≠ (Except.ok res, w) := by
  have hnull : (removeNullValues t1).rows = [] := by
    rw [removeNullValues_rows]
    refine List.filter_eq_nil_iff.mpr (fun r hr => ?_)
    simp [hall r hr]
  have hrows9 : (cleanStages ra rd t1).rows = [] := by
    rw [cleanStages_eq]
    cases ra <;> cases rd <;>
      simp [removeAggregateRows, removeDisplayColumns, hnull]
  have hcol : colNums (cleanStages ra rd t1) "year" = [] := by
    rw [colNums, hrows9]
    rfl
  have hsum : generateSummaryStatistics t.rows.length (cleanStages ra rd t1) =
      Except.error () := generateSummaryStatistics_error_of_no_years hcol
  rw [run_summary_err dt ra rd hvs hvdt hsum]
  refine ⟨rfl, fun res w h => ?_⟩
  injection h with h1 h2
  cases h1

set_option maxRecDepth 100000 in
/-- C9 witness: the empty-cleaned-table failure at a concrete table whose
single row has the unparseable exchange value `"n/a"`. -/
theorem empty_cleaned_table_raises_witness :
    validateSchema nullEVTable = true ∧
    validateDataTypes nullEVTable = Except.ok (nullEVTableCoerced, 0, 1) ∧
    (runCleaningPipeline (some nullEVTable) ⟨2026, 10, 12⟩ true false).1 =
      Except.error () := by
  have hvs : validateSchema nullEVTable = true := by decide
  have hparse : parseNumeric "n/a" = none := by with_unfolding_all decide
  have hcoerce : coerceRow rowN = Except.ok rowNCoerced := by
    unfold coerceRow
    rw [show toNumericCoerce (getCell rowN "exchange_value") = Cell.null by
      rw [show getCell rowN "exchange_value" = Cell.strv "n/a" by decide]
      simp [toNumericCoerce, hparse]]
    decide
  have hmap : exceptMap coerceRow [rowN] = Except.ok [rowNCoerced] := by
    simp only [exceptMap, hcoerce]
    rfl
  have hvdt : validateDataTypes nullEVTable = Except.ok (nullEVTableCoerced, 0, 1) := by
    unfold validateDataTypes
    rw [show nullEVTable.rows = [rowN] from rfl, hmap]
    decide
  exact ⟨hvs, hvdt,
    (empty_cleaned_table_raises nullEVTable nullEVTableCoerced 0 1 ⟨2026, 10, 12⟩
      true false hvs hvdt (by decide)).1⟩

/-- C10: the row-removal stages drop rows by filtering, so each stage's
output rows form a sublist (same relative order) of its input rows, the
coercion stage keeps the row count (it rewrites rows in place), and every
table the pipeline exports has rows forming a sublist of the coerced
loaded rows. -/
theorem removal_preserves_order (t t1 : Table) (ny nv : Nat) (dt : Date) (ra : Bool)
    (hvdt : validateDataTypes t = Except.ok (t1, ny, nv)) :
    t1.rows.length = t.rows.length ∧
    (removeNullValues t1).rows.Sublist t1.rows ∧
    (removeAggregateRows ra (removeNullValues t1)).rows.Sublist t1.rows ∧
    ∀ p ∈ (runCleaningPipeline (some t) dt ra false).2, p.2.rows.Sublist t1.rows := by
  have hsub : (cleanStages ra false t1).rows.Sublist t1.rows := by
    rw [cleanStages_eq, removeDisplayColumns_false]
    exact (removeAggregateRows_sublist ra _).trans (removeNullValues_sublist t1)
  refine ⟨validateDataTypes_ok_length hvdt, removeNullValues_sublist t1,
    (removeAggregateRows_sublist ra _).trans (removeNullValues_sublist t1),
    fun p hp => ?_⟩
  by_cases hvs : validateSchema t = false
  · rw [run_schema_fail dt ra false hvs] at hp
    simp at hp
  · have hvs2 : validateSchema t = true := by
      cases h2 : validateSchema t with
      | true => rfl
      | false => exact absurd h2 hvs
    rw [run_writes dt ra false hvs2 hvdt] at hp
    rw [List.mem_singleton.mp hp]
    exact hsub

/-- C10 witness: order preservation at the concrete `sampleTable` run. -/
theorem removal_preserves_order_witness :
    validateDataTypes sampleTable = Except.ok (sampleTable, 0, 1) ∧
    (removeAggregateRows true (removeNullValues sampleTable)).rows.Sublist
      sampleTable.rows := by
  have hvdt : validateDataTypes sampleTable = Except.ok (sampleTable, 0, 1) := by decide
  exact ⟨hvdt,
    (removal_preserves_order sampleTable sampleTable 0 1 ⟨2026, 10, 12⟩ true hvdt).2.2.1⟩

/-- C4: with `remove_aggregates=False` every coerced row tagged
`All Ecosystems` that survives the null-exchange-value removal is present
in the exported table, and with `remove_aggregates=True` the exported
table contains no `All Ecosystems` row at all. -/
theorem aggregate_flag_toggle (t t1 : Table) (ny nv : Nat) (dt : Date)
    (hvdt : validateDataTypes t = Except.ok (t1, ny, nv)) :
    (∀ p ∈ (runCleaningPipeline (some t) dt false false).2,
      ∀ r ∈ t1.rows, getCell r "ecosystem_type" = Cell.strv "All Ecosystems" →
        isNullCell (getCell r "exchange_value") = false → r ∈ p.2.rows) ∧
    (∀ p ∈ (runCleaningPipeline (some t) dt true false).2,
      p.2.rows.filter
        (fun r => getCell r "ecosystem_type" == Cell.strv "All Ecosystems") = []) := by
  constructor
  · intro p hp r hr heco hnn
    by_cases hvs : validateSchema t = false
    · rw [run_schema_fail dt false false hvs] at hp
      simp at hp
    · have hvs2 : validateSchema t = true := by
        cases h2 : validateSchema t with
        | true => rfl
        | false => exact absurd h2 hvs
      rw [run_writes dt false false hvs2 hvdt] at hp
      rw [List.mem_singleton.mp hp]
      show r ∈ (cleanStages false false t1).rows
      rw [cleanStages_eq, removeDisplayColumns_false, removeAggregateRows_false,
        removeNullValues_rows]
      exact List.mem_filter.mpr ⟨hr, by simp [hnn]⟩
  · intro p hp
    by_cases hvs : validateSchema t = false
    · rw [run_schema_fail dt true false hvs] at hp
      simp at hp
    · have hvs2 : validateSchema t = true := by
        cases h2 : validateSchema t with
        | true => rfl
        | false => exact absurd h2 hvs
      rw [run_writes dt true false hvs2 hvdt] at hp
      rw [List.mem_singleton.mp hp]
      show (cleanStages true false t1).rows.filter
        (fun r => getCell r "ecosystem_type" == Cell.strv "All Ecosystems") = []
      rw [cleanStages_eq, removeDisplayColumns_false, removeAggregateRows_true_rows]
      refine List.filter_eq_nil_iff.mpr (fun r hrin => ?_)
      have h2 := (List.mem_filter.mp hrin).2
      simp only [List.contains_cons, List.contains_nil, Bool.or_false, Bool.not_eq_true'] at h2
      simp [h2]

/-- C4 witness: the toggle at `sampleTable` — with the flag off the
aggregate row `rowA` is exported; the flag-off run writes exactly the
null-filtered table. -/
theorem aggregate_flag_toggle_witness :
    validateDataTypes sampleTable = Except.ok (sampleTable, 0, 1) ∧
    (runCleaningPipeline (some sampleTable) ⟨2026, 10, 12⟩ false false).2 =
      sampleWritesNoAgg ∧
    rowA ∈ sampleNoAggTable.rows := by
  have hvdt : validateDataTypes sampleTable = Except.ok (sampleTable, 0, 1) := by decide
  have hw : (runCleaningPipeline (some sampleTable) ⟨2026, 10, 12⟩ false false).2 =
      sampleWritesNoAgg := by
    rw [run_writes ⟨2026, 10, 12⟩ false false (by decide) hvdt]
    decide
  refine ⟨hvdt, hw, ?_⟩
  have hmem : ("cleaned_noncommercial_20261012.csv", sampleNoAggTable) ∈
      (runCleaningPipeline (some sampleTable) ⟨2026, 10, 12⟩ false false).2 := by
    rw [hw]
    simp [sampleWritesNoAgg]
  exact (aggregate_flag_toggle sampleTable sampleTable 0 1 ⟨2026, 10, 12⟩ hvdt).1
    ("cleaned_noncommercial_20261012.csv", sampleNoAggTable) hmem rowA
    (by decide) (by decide) (by decide)

theorem toNumericCoerce_fix (c : Cell) :
    toNumericCoerce (toNumericCoerce c) = toNumericCoerce c := by
  cases c with
  | num q => rfl
  | null => rfl
  | strv s =>
      cases h : parseNumeric s with
      | none => simp [toNumericCoerce, h]
      | some q => simp [toNumericCoerce, h]

theorem castInt64_coerce_fix {c y : Cell}
    (h : castInt64 (toNumericCoerce c) = Except.ok y) :
    castInt64 (toNumericCoerce y) = Except.ok y := by
  generalize toNumericCoerce c = d at h
  cases d with
  | strv s => cases h
  | null =>
      simp only [castInt64] at h
      injection h with h
      subst h
      rfl
  | num q =>
      simp only [castInt64] at h
      by_cases hq : q.den = 1
      · rw [if_pos hq] at h
        injection h with h
        subst h
        simp [toNumericCoerce, castInt64, hq]
      · rw [if_neg hq] at h
        cases h

theorem lookup_setCell (c : String) (v : Cell) (c' : String) :
    ∀ r : Row, (setCell r c v).lookup c' =
      (r.lookup c').map (fun x => if c' = c then v else x)
  | [] => rfl
  | (k, x) :: rest => by
      by_cases hk : c' = k
      · subst hk
        simp [setCell, List.lookup]
      · have hbeq : (c' == k) = false := beq_eq_false_iff_ne.mpr hk
        simp only [setCell, List.map_cons, List.lookup, hbeq]
        simpa [setCell] using lookup_setCell c v c' rest

theorem getCell_setCell_same (r : Row) (c : String) (v : Cell) :
    getCell (setCell r c v) c =
      (match r.lookup c with
        | some _ => v
        | none => Cell.null) := by
  rw [getCell, lookup_setCell]
  cases r.lookup c <;> simp

theorem getCell_setCell_other {c c' : String} (h : c' ≠ c) (r : Row) (v : Cell) :
    getCell (setCell r c v) c' = getCell r c' := by
  rw [getCell, getCell, lookup_setCell]
  cases r.lookup c' <;> simp [h]

theorem setCell_absorb (c : String) (v w : Cell) (r : Row) :
    setCell (setCell r c v) c w = setCell r c w := by
  simp only [setCell, List.map_map]
  refine List.map_congr_left (fun p _ => ?_)
  by_cases hp : p.1 = c <;> simp [hp]

theorem setCell_comm {c c' : String} (h : c ≠ c') (v w : Cell) (r : Row) :
    setCell (setCell r c v) c' w = setCell (setCell r c' w) c v := by
  simp only [setCell, List.map_map]
  refine List.map_congr_left (fun p _ => ?_)
  by_cases h1 : p.1 = c
  · by_cases h2 : p.1 = c'
    · exact absurd (h1.symm.trans h2) h
    · simp [h1, h2, h]
  · by_cases h2 : p.1 = c' <;> simp [h1, h2, Ne.symm h]

theorem coerceRow_eq (r : Row) :
    coerceRow r = (castInt64 (toNumericCoerce (getCell r "year"))).bind
      (fun y => Except.ok (setCell (setCell r "year" y) "exchange_value"
        (toNumericCoerce (getCell r "exchange_value")))) := rfl

theorem coerceRow_idem {r r2 : Row} (h : coerceRow r = Except.ok r2) :
    coerceRow r2 = Except.ok r2 := by
  rw [coerceRow_eq] at h
  cases hy : castInt64 (toNumericCoerce (getCell r "year")) with
  | error e => rw [hy] at h; cases h
  | ok y =>
      rw [hy] at h
      simp only [Except.bind] at h
      injection h with h
      subst h
      have hne : "year" ≠ "exchange_value" := by decide
      have hne' : "exchange_value" ≠ "year" := by decide
      rw [coerceRow_eq]
      have hyy2 : castInt64 (toNumericCoerce (getCell (setCell (setCell r "year" y)
          "exchange_value" (toNumericCoerce (getCell r "exchange_value"))) "year")) =
          Except.ok y := by
        rw [getCell_setCell_other hne, getCell_setCell_same]
        cases hl : r.lookup "year" with
        | none =>
            have hnully : getCell r "year" = Cell.null := by rw [getCell, hl]
            rw [hnully] at hy
            simp only [toNumericCoerce, castInt64] at hy
            injection hy with hy
            subst hy
            rfl
        | some u =>
            have hu : getCell r "year" = u := by rw [getCell, hl]
            rw [hu] at hy
            exact castInt64_coerce_fix hy
      rw [hyy2]
      simp only [Except.bind, Except.ok.injEq]
      have hvv : toNumericCoerce (getCell (setCell (setCell r "year" y)
          "exchange_value" (toNumericCoerce (getCell r "exchange_value")))
          "exchange_value") = toNumericCoerce (getCell r "exchange_value") := by
        rw [getCell_setCell_same, lookup_setCell]
        cases hl : r.lookup "exchange_value" with
        | none =>
            have hnull : getCell r "exchange_value" = Cell.null := by rw [getCell, hl]
            simp [hnull]
        | some u =>
            simp only [Option.map, if_neg hne']
            exact toNumericCoerce_fix _
      rw [hvv]
      have habs1 : setCell (setCell (setCell r "year" y) "exchange_value"
          (toNumericCoerce (getCell r "exchange_value"))) "year" y =
          setCell (setCell r "year" y) "exchange_value"
            (toNumericCoerce (getCell r "exchange_value")) := by
        rw [setCell_comm (Ne.symm hne), setCell_absorb]
      rw [habs1, setCell_absorb]

theorem exceptMap_coerceRow_idem :
    ∀ {l l2 : List Row}, exceptMap coerceRow l = Except.ok l2 →
      exceptMap coerceRow l2 = Except.ok l2 := by
  intro l
  induction l with
  | nil =>
      intro l2 h
      simp only [exceptMap] at h
      injection h with h
      subst h
      rfl
  | cons a as ih =>
      intro l2 h
      simp only [exceptMap, bind, Except.bind] at h
      cases ha : coerceRow a with
      | error e => rw [ha] at h; cases h
      | ok b =>
          rw [ha] at h
          cases has : exceptMap coerceRow as with
          | error e => rw [has] at h; cases h
          | ok bs =>
              rw [has] at h
              injection h with h
              subst h
              simp only [exceptMap, bind, Except.bind, coerceRow_idem ha, ih has]

/-- C8: `validateDataTypes` is idempotent — applying the year /
exchange-value coercion to an already-coerced table returns the very same
table (same cells, same nulls) and the same null counts. -/
theorem validateDataTypes_idempotent (t t1 : Table) (ny nv : Nat)
    (h : validateDataTypes t = Except.ok (t1, ny, nv)) :
    validateDataTypes t1 = Except.ok (t1, ny, nv) := by
  simp only [validateDataTypes, bind, Except.bind] at h ⊢
  cases hrows : exceptMap coerceRow t.rows with
  | error e => rw [hrows] at h; cases h
  | ok rows =>
      rw [hrows] at h
      injection h with h
      injection h with h1 h23
      injection h23 with h2 h3
      subst h1
      subst h2
      subst h3
      rw [show exceptMap coerceRow ({ t with rows := rows } : Table).rows =
        Except.ok rows from exceptMap_coerceRow_idem hrows]

set_option maxRecDepth 100000 in
/-- C8 witness: idempotence at a concrete table whose year and exchange
value arrive as the strings `"2011"` and `"3.5"` — a second application of
`validateDataTypes` to the coerced table returns it unchanged, with the
same null counts. -/
theorem validateDataTypes_idempotent_witness :
    validateDataTypes tMixed = Except.ok (tMixedCoerced, 0, 0) ∧
    validateDataTypes tMixedCoerced = Except.ok (tMixedCoerced, 0, 0) := by
  have hp1 : parseNumeric "2011" = some 2011 := by with_unfolding_all decide
  have hp2 : parseNumeric "3.5" = some sevenHalves := by with_unfolding_all decide
  have hc1 : toNumericCoerce (getCell rowM "year") = Cell.num 2011 := by
    rw [show getCell rowM "year" = Cell.strv "2011" by decide]
    simp [toNumericCoerce, hp1]
  have hc2 : toNumericCoerce (getCell rowM "exchange_value") = Cell.num sevenHalves := by
    rw [show getCell rowM "exchange_value" = Cell.strv "3.5" by decide]
    simp [toNumericCoerce, hp2]
  have hcoerce : coerceRow rowM = Except.ok rowMCoerced := by
    rw [coerceRow_eq, hc1, hc2]
    decide
  have hmap : exceptMap coerceRow [rowM] = Except.ok [rowMCoerced] := by
    simp only [exceptMap, hcoerce]
    rfl
  have hvdt : validateDataTypes tMixed = Except.ok (tMixedCoerced, 0, 0) := by
    unfold validateDataTypes
    rw [show tMixed.rows = [rowM] from rfl, hmap]
    decide
  exact ⟨hvdt, validateDataTypes_idempotent tMixed tMixedCoerced 0 0 hvdt⟩

end Fisheries
